import Mathlib

/-!
Shallow embedding of the `http_limiter` Go package (a rate-limiting HTTP
middleware around an external redis-backed limiter) and proofs about it.

The middleware source is a single Go file: configuration defaulting
(`NewWithConfig`), a per-request closure that consults the external limiter
and translates its decision into HTTP headers / status codes, and a default
key-derivation function (`GetIP`) extracting the client IP.

Modelling conventions:
* Go strings are Lean `String`; character-level processing is done on
  `List Char` with structural recursion so that everything evaluates by
  kernel reduction.
* `net.IP` is modelled for IPv4 dotted-quad literals only (`IPv4`); all
  other inputs (including IPv6 literals, which no claim exercises) parse to
  `none`, standing for Go's nil IP.
* Time is an `Int` count of nanoseconds since the Unix epoch; Go's
  `time.Time.Unix()` after `Add` is floor division by 10^9.
* The external limiter (`go_limiter`) is an oracle parameter
  `String → Except GoError LimiterResult`; the middleware's single call to
  it is recorded in a trace so that claims about the key passed and the
  number of calls are statable.
* `panic` at construction is modelled by `Except.error`.
-/

/-- Error values (Go `error`), identified with their `Error()` text. -/
abbrev GoError := String

/-- An opaque stand-in for `*redis.Client`; only nil-ness is observable here. -/
structure Rediser where
  deriving DecidableEq

/-- The parts of `*http.Request` the middleware reads: the two headers used by
`GetIP` (Go `Header.Get` returns `""` when a header is absent, so a plain
`String` field is faithful) and `RemoteAddr`. -/
structure Request where
  xForwardedFor : String := ""
  xRealIP : String := ""
  remoteAddr : String := ""
  deriving DecidableEq

/-- A model of `http.ResponseWriter` observables: header map, status code
written, and accumulated body. -/
structure Response where
  headers : List (String × String) := []
  status : Option Int := none
  body : String := ""
  deriving DecidableEq

/-- Go `Header().Set(k, v)`: replace any existing values for the key. -/
def Response.setHeader (w : Response) (k v : String) : Response :=
  { w with headers := (k, v) :: w.headers.filter (fun p => p.1 ≠ k) }

/-- Header lookup (Go `Header().Get`). -/
def Response.getHeader (w : Response) (k : String) : Option String :=
  (w.headers.find? (fun p => p.1 = k)).map Prod.snd

/-- Go `w.WriteHeader(code)`: only the first call takes effect. -/
def Response.writeHeader (w : Response) (code : Int) : Response :=
  if w.status.isSome then w else { w with status := some code }

/-- Go `w.Write(b)`: an implicit `WriteHeader(200)` if none was written yet,
then append to the body. -/
def Response.write (w : Response) (s : String) : Response :=
  let w' := if w.status.isSome then w else { w with status := some (200 : Int) }
  { w' with body := w'.body ++ s }

/-! ### Character-list string helpers (models of Go `strings` functions) -/

/-- Go's `unicode.IsSpace` restricted to the ASCII whitespace the claims use. -/
def isSpaceChar (c : Char) : Bool :=
  c = ' ' ∨ c = '\t' ∨ c = '\n' ∨ c = '\r'

/-- Model of Go `strings.TrimSpace`. -/
def trimSpace (s : String) : String :=
  (((s.data.dropWhile isSpaceChar).reverse.dropWhile isSpaceChar).reverse).asString

/-- Characters strictly before the first occurrence of `c`
(the whole list when `c` is absent). -/
def takeUntil (c : Char) : List Char → List Char
  | [] => []
  | x :: xs => if x = c then [] else x :: takeUntil c xs

/-- `strings.SplitN(s, ",", 2)[0]`: the segment before the first comma. -/
def beforeComma (s : String) : String :=
  (takeUntil ',' s.data).asString

/-- Split on every occurrence of `c` (model of `strings.Split`). -/
def splitBy (c : Char) : List Char → List (List Char)
  | [] => [[]]
  | x :: xs =>
    if x = c then [] :: splitBy c xs
    else
      match splitBy c xs with
      | [] => [[x]]
      | h :: t => (x :: h) :: t

/-- Index of the first occurrence of `c`, if any. -/
def idxOfFrom (c : Char) : List Char → Nat → Option Nat
  | [], _ => none
  | x :: xs, n => if x = c then some n else idxOfFrom c xs (n + 1)

/-- First index of `c` in `l`. -/
def idxOf (c : Char) (l : List Char) : Option Nat :=
  idxOfFrom c l 0

/-- Last index of `c` in `l`. -/
def lastIdxOf (c : Char) (l : List Char) : Option Nat :=
  match idxOf c l.reverse with
  | none => none
  | some j => some (l.length - 1 - j)

/-- Decimal value of a digit list (already known to be all digits). -/
def digitsToNat : List Char → Nat → Nat
  | [], acc => acc
  | c :: cs, acc => digitsToNat cs (acc * 10 + (c.toNat - 48))

/-! ### Model of `net.ParseIP` (IPv4) and `net.SplitHostPort` -/

/-- A parsed IPv4 address (the only `net.IP` shape the claims exercise). -/
structure IPv4 where
  a : Nat
  b : Nat
  c : Nat
  d : Nat
  deriving DecidableEq

/-- One dotted-quad field as Go's `dtoi` + `n > 0xFF` check accepts it:
non-empty, all digits, value at most 255 (leading zeros allowed, as in the
Go version this repository targets). -/
def parseOctet (p : List Char) : Option Nat :=
  if p = [] then none
  else if p.all Char.isDigit then
    let n := digitsToNat p 0
    if n ≤ 255 then some n else none
  else none

/-- Model of Go `net.ParseIP` restricted to IPv4 dotted-quad literals;
every other input (IPv6 included) yields `none`, Go's nil IP. -/
def parseIP (s : String) : Option IPv4 :=
  match splitBy '.' s.data with
  | [p1, p2, p3, p4] =>
    match parseOctet p1, parseOctet p2, parseOctet p3, parseOctet p4 with
    | some a, some b, some c, some d => some ⟨a, b, c, d⟩
    | _, _, _, _ => none
  | _ => none

/-- Go `net.IP.String()`: `"<nil>"` for the nil IP, dotted quad otherwise. -/
def ipString : Option IPv4 → String
  | none => "<nil>"
  | some ip =>
    toString ip.a ++ "." ++ toString ip.b ++ "." ++ toString ip.c ++ "." ++ toString ip.d

/-- Model of Go `net.SplitHostPort`: split `host:port` (or `[host]:port`) at
the last colon; `none` models every error return (missing port, too many
colons, bracket errors). -/
def splitHostPort (s : String) : Option (String × String) :=
  let cs := s.data
  match lastIdxOf ':' cs with
  | none => none
  | some i =>
    if cs.head? = some '[' then
      match idxOf ']' cs with
      | none => none
      | some e =>
        if e + 1 = cs.length then none
        else if e + 1 = i then
          let host := (cs.drop 1).take (e - 1)
          if (cs.drop 1).contains '[' then none
          else if (cs.drop (e + 1)).contains ']' then none
          else some (host.asString, (cs.drop (i + 1)).asString)
        else none
    else
      let host := cs.take i
      if host.contains ':' then none
      else if cs.contains '[' then none
      else if cs.contains ']' then none
      else some (host.asString, (cs.drop (i + 1)).asString)

/-! ### The repository's definitions -/

/-- `GetIP` (source lines 218–238): client-IP extraction.
`X-Forwarded-For` first (segment before the first comma, trimmed), then
trimmed `X-Real-IP`, then the trimmed remote address with its port stripped
via `SplitHostPort` (raw remote address when that errors). -/
def GetIP (r : Request) : Option IPv4 :=
  if r.xForwardedFor ≠ "" then
    parseIP (trimSpace (beforeComma r.xForwardedFor))
  else if trimSpace r.xRealIP ≠ "" then
    parseIP (trimSpace r.xRealIP)
  else
    let remoteAddr := trimSpace r.remoteAddr
    match splitHostPort remoteAddr with
    | none => parseIP remoteAddr
    | some (host, _) => parseIP host

/-- `DefaultSkipper` (source lines 212–214): never skip. -/
def DefaultSkipper (_ : Request) : Bool := false

/-- The default `Config.Key` (source lines 31–33): `GetIP(r).String()`. -/
def defaultKey (r : Request) : String :=
  ipString (GetIP r)

/-- Models the external `go_limiter.SlidingWindowAlgorithm` constant; only
its identity matters to this layer, its numeral is a modelling choice. -/
def SlidingWindowAlgorithm : Nat := 1

/-- Models the external `go_limiter.GCRAAlgorithm` constant. -/
def GCRAAlgorithm : Nat := 2

/-- `DefaultKeyPrefix` (source line 18). -/
def DefaultKeyPfx : String := "http_limiter"

/-- The `Config` struct (source lines 38–95). Nilable Go fields (functions,
the redis client) are `Option`; zero values are the Lean defaults. -/
structure Config where
  skipper : Option (Request → Bool) := none
  rediser : Option Rediser := none
  max : Int := 0
  burst : Int := 0
  statusCode : Int := 0
  message : String := ""
  algorithm : Nat := 0
  pfx : String := ""
  skipOnError : Bool := false
  period : Int := 0
  key : Option (Request → String) := none
  handler : Option (Response → Request → Response) := none
  errHandler : Option (GoError → Response → Request → Response) := none

/-- `DefaultConfig` (source lines 21–35). `Period` is one minute in
nanoseconds. -/
def DefaultConfig : Config where
  skipper := some DefaultSkipper
  max := 10
  burst := 10
  pfx := DefaultKeyPfx
  algorithm := SlidingWindowAlgorithm
  statusCode := 429
  message := "Too many requests, please try again later."
  period := 60 * 1000000000
  key := some defaultKey

/-- A configuration after `NewWithConfig`'s defaulting: every nilable field
resolved to a plain value. -/
structure ResolvedConfig where
  skipper : Request → Bool
  max : Int
  burst : Int
  statusCode : Int
  message : String
  algorithm : Nat
  pfx : String
  skipOnError : Bool
  period : Int
  key : Request → String
  handler : Response → Request → Response
  errHandler : GoError → Response → Request → Response

/-- The defaulting steps of `NewWithConfig` (source lines 110–158), in source
order; the default reject/error handlers close over the already-resolved
status code and message, as the Go closures do. -/
def resolveConfig (c : Config) : ResolvedConfig :=
  let statusCode := if c.statusCode = 0 then DefaultConfig.statusCode else c.statusCode
  let message := if c.message = "" then DefaultConfig.message else c.message
  { skipper := c.skipper.getD DefaultSkipper
    max := if c.max = 0 then DefaultConfig.max else c.max
    burst := if c.burst = 0 then DefaultConfig.burst else c.burst
    statusCode := statusCode
    message := message
    algorithm := if c.algorithm = 0 then DefaultConfig.algorithm else c.algorithm
    pfx := if c.pfx = "" then DefaultConfig.pfx else c.pfx
    skipOnError := c.skipOnError
    period := if c.period = 0 then DefaultConfig.period else c.period
    key := c.key.getD defaultKey
    handler := c.handler.getD
      (fun w _ => (w.writeHeader statusCode).write message)
    errHandler := c.errHandler.getD
      (fun err w _ => (w.writeHeader 500).write err) }

/-- The `go_limiter.Limit` record built at source lines 161–166. -/
structure Limit where
  period : Int
  algorithm : Nat
  rate : Int
  burst : Int
  deriving DecidableEq

/-- What `NewWithConfig` produces besides the closure: the resolved
configuration and the limit spec it will pass to every `Allow` call. -/
structure Middleware where
  cfg : ResolvedConfig
  limit : Limit

/-- `NewWithConfig` (source lines 105–166): panic (modelled as `.error`) on a
nil redis client, otherwise resolve the configuration and build the limit. -/
def NewWithConfig (config : Config) : Except GoError Middleware :=
  if config.rediser.isNone then
    .error "redis client is missing"
  else
    let cfg := resolveConfig config
    .ok { cfg := cfg
          limit := { period := cfg.period, algorithm := cfg.algorithm
                     rate := cfg.max, burst := cfg.burst } }

/-- `New` (source lines 99–103): `DefaultConfig` with the given client. -/
def New (rediser : Option Rediser) : Except GoError Middleware :=
  NewWithConfig { DefaultConfig with rediser := rediser }

/-- The decision returned by the external limiter's `Allow`
(`go_limiter.Result`): allowed flag, remaining quota, and the reset/retry
durations in nanoseconds. -/
structure LimiterResult where
  allowed : Bool
  remaining : Int
  resetAfter : Int
  retryAfter : Int
  deriving DecidableEq

/-- `time.Now().Add(d).Unix()` with `now` and `d` in nanoseconds since the
Unix epoch: floor division by 10^9. -/
def unixAfter (now d : Int) : Int :=
  Int.fdiv (now + d) 1000000000

/-- The four terminal outcomes of the per-request closure. -/
inductive Outcome
  | skipped
  | errored
  | rejected
  | allowed
  deriving DecidableEq

/-- Observables of one request through the middleware: the final response,
which terminal path ran, the keys passed to the external limiter's `Allow`
(in call order), and whether the inner handler was invoked. -/
structure ServeResult where
  response : Response
  outcome : Outcome
  allowCalls : List String
  nextInvoked : Bool
  deriving DecidableEq

/-- The per-request closure returned by `NewWithConfig` (source lines
169–207), as a pure function of the resolved configuration, the external
limiter (an oracle from the key to its reply), the current time, the inner
handler `next`, the response writer and the request. -/
def serve (cfg : ResolvedConfig) (lim : String → Except GoError LimiterResult)
    (now : Int) (next : Response → Request → Response)
    (w : Response) (r : Request) : ServeResult :=
  if cfg.skipper r then
    { response := next w r, outcome := .skipped, allowCalls := [], nextInvoked := true }
  else
    let key := cfg.key r
    match lim key with
    | .error err =>
      if cfg.skipOnError then
        { response := next w r, outcome := .errored, allowCalls := [key], nextInvoked := true }
      else
        { response := cfg.errHandler err w r, outcome := .errored
          allowCalls := [key], nextInvoked := false }
    | .ok result =>
      if !result.allowed then
        let w' := w.setHeader "Retry-After" (toString (unixAfter now result.retryAfter))
        { response := cfg.handler w' r, outcome := .rejected
          allowCalls := [key], nextInvoked := false }
      else
        let w' := ((w.setHeader "X-RateLimit-Limit" (toString cfg.max)).setHeader
          "X-RateLimit-Remaining" (toString result.remaining)).setHeader
          "X-RateLimit-Reset" (toString (unixAfter now result.resetAfter))
        { response := next w' r, outcome := .allowed
          allowCalls := [key], nextInvoked := true }

/-! ### Claim theorems -/

/-- C4: when the skip predicate returns true the middleware forwards the
request to the inner handler with the response untouched, sets no headers,
and makes no call to the external limiter, regardless of what the limiter
oracle would answer. -/
theorem skip_bypasses_limiter (cfg : ResolvedConfig)
    (lim : String → Except GoError LimiterResult) (now : Int)
    (next : Response → Request → Response) (w : Response) (r : Request)
    (hskip : cfg.skipper r = true) :
    serve cfg lim now next w r =
      { response := next w r, outcome := .skipped, allowCalls := [], nextInvoked := true } := by
  simp [serve, hskip]

/-- Witness for C4: a config whose skipper always skips, over a limiter that
would fail, still forwards with no limiter call. -/
theorem skip_bypasses_limiter_witness :
    (resolveConfig { skipper := some (fun _ => true) }).skipper {} = true ∧
      serve (resolveConfig { skipper := some (fun _ => true) })
        (fun _ => .error "store down") 0 (fun w _ => w) {} {} =
        { response := {}, outcome := .skipped, allowCalls := [], nextInvoked := true } :=
  ⟨rfl, skip_bypasses_limiter (resolveConfig { skipper := some (fun _ => true) })
    (fun _ => .error "store down") 0 (fun w _ => w) {} {} rfl⟩

/-- C8: construction with a nil redis client aborts with the panic error and
produces no middleware value. -/
theorem nil_rediser_aborts (c : Config) (h : c.rediser = none) :
    NewWithConfig c = .error "redis client is missing" ∧
      ∀ m : Middleware, NewWithConfig c ≠ .ok m := by
  constructor
  · simp [NewWithConfig, h]
  · intro m
    simp [NewWithConfig, h]

/-- Witness for C8: the all-zero configuration has no redis client, so
construction aborts. -/
theorem nil_rediser_aborts_witness :
    NewWithConfig {} = .error "redis client is missing" :=
  (nil_rediser_aborts {} rfl).1

/-- C9: per request exactly one of the four terminal outcomes happens; the
outcome is `skipped` precisely when the skip predicate fired, and the
external limiter is called at most once (exactly once on non-skipped
requests, with no retry). -/
theorem exactly_one_outcome_per_request (cfg : ResolvedConfig)
    (lim : String → Except GoError LimiterResult) (now : Int)
    (next : Response → Request → Response) (w : Response) (r : Request) :
    ((serve cfg lim now next w r).outcome = .skipped ∨
      (serve cfg lim now next w r).outcome = .errored ∨
      (serve cfg lim now next w r).outcome = .rejected ∨
      (serve cfg lim now next w r).outcome = .allowed) ∧
    ((serve cfg lim now next w r).outcome = .skipped ↔ cfg.skipper r = true) ∧
    (serve cfg lim now next w r).allowCalls =
      (if cfg.skipper r then [] else [cfg.key r]) ∧
    (serve cfg lim now next w r).allowCalls.length ≤ 1 := by
  by_cases hs : cfg.skipper r
  · simp [serve, hs]
  · rcases hl : lim (cfg.key r) with e | res
    · by_cases hse : cfg.skipOnError <;> simp [serve, hs, hl, hse]
    · by_cases ha : res.allowed <;> simp [serve, hs, hl, ha]

/-- C10: whenever `GetIP` yields the nil IP, the default key is the literal
`"<nil>"`, so all such requests share one rate-limit key; concrete cases: an
unparseable `X-Forwarded-For` value and an unparseable remote host. -/
theorem invalid_ip_yields_shared_nil_key :
    (∀ r : Request, GetIP r = none → defaultKey r = "<nil>") ∧
    (∀ r r' : Request, GetIP r = none → GetIP r' = none → defaultKey r = defaultKey r') ∧
    GetIP { xForwardedFor := "not-an-ip", xRealIP := "", remoteAddr := "" } = none ∧
    defaultKey { xForwardedFor := "not-an-ip", xRealIP := "", remoteAddr := "" } = "<nil>" ∧
    GetIP { xForwardedFor := "", xRealIP := "", remoteAddr := "localhost:8080" } = none ∧
    defaultKey { xForwardedFor := "", xRealIP := "", remoteAddr := "localhost:8080" } = "<nil>" := by
  refine ⟨?_, ?_, by decide, by decide, by decide, by decide⟩
  · intro r h
    simp [defaultKey, h, ipString]
  · intro r r' h h'
    simp [defaultKey, h, h', ipString]

/-- Witness for C10: a third unparseable input also folds to `"<nil>"`. -/
theorem invalid_ip_yields_shared_nil_key_witness :
    defaultKey { xForwardedFor := "10.0.0.999", xRealIP := "", remoteAddr := "" } = "<nil>" :=
  invalid_ip_yields_shared_nil_key.1
    { xForwardedFor := "10.0.0.999", xRealIP := "", remoteAddr := "" } (by decide)

/-- C1: on a successful limiter call with `allowed = false`, the middleware
sets `Retry-After` to the Unix timestamp now + retry-after and invokes the
reject handler on that response without forwarding to the inner handler;
with no custom reject handler the status is the configured code and the body
the configured message. -/
theorem reject_path_spec (c : Config)
    (lim : String → Except GoError LimiterResult) (now : Int)
    (next : Response → Request → Response) (r : Request) (res : LimiterResult)
    (hskip : (resolveConfig c).skipper r = false)
    (hcall : lim ((resolveConfig c).key r) = .ok res)
    (hallowed : res.allowed = false) :
    (∀ w : Response, serve (resolveConfig c) lim now next w r =
      { response := (resolveConfig c).handler
          (w.setHeader "Retry-After" (toString (unixAfter now res.retryAfter))) r
        outcome := .rejected
        allowCalls := [(resolveConfig c).key r]
        nextInvoked := false }) ∧
    (c.handler = none →
      (serve (resolveConfig c) lim now next {} r).response.getHeader "Retry-After"
          = some (toString (unixAfter now res.retryAfter)) ∧
        (serve (resolveConfig c) lim now next {} r).response.status
          = some (resolveConfig c).statusCode ∧
        (serve (resolveConfig c) lim now next {} r).response.body
          = (resolveConfig c).message ∧
        (serve (resolveConfig c) lim now next {} r).nextInvoked = false) := by
  constructor
  · intro w
    simp [serve, hskip, hcall, hallowed]
  · intro hhandler
    have hh : (resolveConfig c).handler = fun w _ =>
        (w.writeHeader (resolveConfig c).statusCode).write (resolveConfig c).message := by
      simp [resolveConfig, hhandler]
    simp [serve, hskip, hcall, hallowed, hh, Response.setHeader, Response.writeHeader,
      Response.write, Response.getHeader]

/-- Witness for C1: default configuration, a decision rejecting with a 5s
retry-after at time 0; the response is 429 with the default message and
`Retry-After: 5`. -/
theorem reject_path_spec_witness :
    (resolveConfig {}).skipper {} = false ∧
      (serve (resolveConfig {}) (fun _ => .ok ⟨false, 0, 0, 5000000000⟩) 0
          (fun w _ => w) {} {}).response.status = some 429 ∧
      (serve (resolveConfig {}) (fun _ => .ok ⟨false, 0, 0, 5000000000⟩) 0
          (fun w _ => w) {} {}).response.body
        = "Too many requests, please try again later." ∧
      (serve (resolveConfig {}) (fun _ => .ok ⟨false, 0, 0, 5000000000⟩) 0
          (fun w _ => w) {} {}).response.getHeader "Retry-After" = some "5" := by
  have h := (reject_path_spec {} (fun _ => .ok ⟨false, 0, 0, 5000000000⟩) 0
    (fun w _ => w) {} ⟨false, 0, 0, 5000000000⟩ rfl rfl rfl).2 rfl
  exact ⟨rfl, by rw [h.2.1]; decide, by rw [h.2.2.1]; decide, by rw [h.1]; decide⟩

/-- C2: on a successful limiter call with `allowed = true`, the middleware
forwards to the inner handler a response carrying `X-RateLimit-Limit` =
configured max, `X-RateLimit-Remaining` = the decision's remaining count and
`X-RateLimit-Reset` = Unix timestamp now + reset-after. -/
theorem allow_path_spec (cfg : ResolvedConfig)
    (lim : String → Except GoError LimiterResult) (now : Int)
    (next : Response → Request → Response) (w : Response) (r : Request)
    (res : LimiterResult)
    (hskip : cfg.skipper r = false)
    (hcall : lim (cfg.key r) = .ok res)
    (hallowed : res.allowed = true) :
    serve cfg lim now next w r =
      { response := next (((w.setHeader "X-RateLimit-Limit" (toString cfg.max)).setHeader
            "X-RateLimit-Remaining" (toString res.remaining)).setHeader
            "X-RateLimit-Reset" (toString (unixAfter now res.resetAfter))) r
        outcome := .allowed
        allowCalls := [cfg.key r]
        nextInvoked := true } ∧
    ((((w.setHeader "X-RateLimit-Limit" (toString cfg.max)).setHeader
        "X-RateLimit-Remaining" (toString res.remaining)).setHeader
        "X-RateLimit-Reset" (toString (unixAfter now res.resetAfter))).getHeader
        "X-RateLimit-Limit" = some (toString cfg.max) ∧
      (((w.setHeader "X-RateLimit-Limit" (toString cfg.max)).setHeader
        "X-RateLimit-Remaining" (toString res.remaining)).setHeader
        "X-RateLimit-Reset" (toString (unixAfter now res.resetAfter))).getHeader
        "X-RateLimit-Remaining" = some (toString res.remaining) ∧
      (((w.setHeader "X-RateLimit-Limit" (toString cfg.max)).setHeader
        "X-RateLimit-Remaining" (toString res.remaining)).setHeader
        "X-RateLimit-Reset" (toString (unixAfter now res.resetAfter))).getHeader
        "X-RateLimit-Reset" = some (toString (unixAfter now res.resetAfter))) := by
  constructor
  · simp [serve, hskip, hcall, hallowed]
  · refine ⟨?_, ?_, ?_⟩ <;>
      simp [Response.setHeader, Response.getHeader]

/-- Witness for C2: default configuration at time 0 with remaining 7 and a
3s reset-after; the inner handler sees Limit 10, Remaining 7, Reset 3. -/
theorem allow_path_spec_witness :
    ((serve (resolveConfig {}) (fun _ => .ok ⟨true, 7, 3000000000, 0⟩) 0
        (fun w _ => w) {} {}).response.getHeader "X-RateLimit-Limit" = some "10" ∧
      (serve (resolveConfig {}) (fun _ => .ok ⟨true, 7, 3000000000, 0⟩) 0
        (fun w _ => w) {} {}).response.getHeader "X-RateLimit-Remaining" = some "7" ∧
      (serve (resolveConfig {}) (fun _ => .ok ⟨true, 7, 3000000000, 0⟩) 0
        (fun w _ => w) {} {}).response.getHeader "X-RateLimit-Reset" = some "3") ∧
    (serve (resolveConfig {}) (fun _ => .ok ⟨true, 7, 3000000000, 0⟩) 0
        (fun w _ => w) {} {}).nextInvoked = true := by
  have h := (allow_path_spec (resolveConfig {}) (fun _ => .ok ⟨true, 7, 3000000000, 0⟩) 0
    (fun w _ => w) {} {} ⟨true, 7, 3000000000, 0⟩ rfl rfl rfl).1
  constructor
  · rw [h]
    exact ⟨by decide, by decide, by decide⟩
  · rw [h]

/-- C3: when the limiter call fails, with skip-on-error the request is
forwarded with the response untouched; without it the error handler — any
configured error handler — produces the response and the inner handler does
not run (default error handler: status 500, body the error text, no headers
set). -/
theorem store_error_paths (c : Config)
    (lim : String → Except GoError LimiterResult) (now : Int)
    (next : Response → Request → Response) (r : Request) (e : GoError)
    (hskip : (resolveConfig c).skipper r = false)
    (hcall : lim ((resolveConfig c).key r) = .error e) :
    (c.skipOnError = true → ∀ w : Response, serve (resolveConfig c) lim now next w r =
      { response := next w r, outcome := .errored
        allowCalls := [(resolveConfig c).key r], nextInvoked := true }) ∧
    (c.skipOnError = false → ∀ w : Response, serve (resolveConfig c) lim now next w r =
      { response := (resolveConfig c).errHandler e w r, outcome := .errored
        allowCalls := [(resolveConfig c).key r], nextInvoked := false }) ∧
    (c.skipOnError = false → c.errHandler = none →
      (serve (resolveConfig c) lim now next {} r).response.status = some 500 ∧
        (serve (resolveConfig c) lim now next {} r).response.body = e ∧
        (serve (resolveConfig c) lim now next {} r).response.headers = [] ∧
        (serve (resolveConfig c) lim now next {} r).nextInvoked = false ∧
        (serve (resolveConfig c) lim now next {} r).outcome = .errored) := by
  refine ⟨?_, ?_, ?_⟩
  · intro hse w
    have : (resolveConfig c).skipOnError = true := by simp [resolveConfig, hse]
    simp [serve, hskip, hcall, this]
  · intro hse w
    have h1 : (resolveConfig c).skipOnError = false := by simp [resolveConfig, hse]
    simp [serve, hskip, hcall, h1]
  · intro hse herr
    have h1 : (resolveConfig c).skipOnError = false := by simp [resolveConfig, hse]
    have h2 : (resolveConfig c).errHandler = fun err w _ =>
        (w.writeHeader 500).write err := by
      simp [resolveConfig, herr]
    simp [serve, hskip, hcall, h1, h2, Response.writeHeader, Response.write]

/-- Witness for C3: default configuration (skip-on-error false), a failing
store; the response is 500 with the error text and the inner handler did not
run. -/
theorem store_error_paths_witness :
    (serve (resolveConfig {}) (fun _ => .error "redis: connection refused") 0
        (fun w _ => w) {} {}).response.status = some 500 ∧
      (serve (resolveConfig {}) (fun _ => .error "redis: connection refused") 0
        (fun w _ => w) {} {}).response.body = "redis: connection refused" ∧
      (serve (resolveConfig {}) (fun _ => .error "redis: connection refused") 0
        (fun w _ => w) {} {}).nextInvoked = false := by
  have h := (store_error_paths {} (fun _ => .error "redis: connection refused") 0
    (fun w _ => w) {} "redis: connection refused" rfl rfl).2.2 rfl rfl
  exact ⟨h.1, h.2.1, h.2.2.2.1⟩

/-- C5: evaluation at a concrete non-skipped request shows the key handed to
the external limiter's `Allow` is the key function's output alone; the
configured namespace (left at its default `"http_limiter"`) is never
prepended, contradicting the claim. -/
theorem allow_key_lacks_namespace :
    (resolveConfig { key := some (fun _ => "1.2.3.4") }).pfx = "http_limiter" ∧
      (serve (resolveConfig { key := some (fun _ => "1.2.3.4") })
          (fun _ => .ok ⟨true, 1, 0, 0⟩) 0 (fun w _ => w) {} {}).allowCalls
        = ["1.2.3.4"] ∧
      (["1.2.3.4"] : List String) ≠ ["http_limiter" ++ "1.2.3.4"] ∧
      ∀ (cfg : ResolvedConfig) (lim : String → Except GoError LimiterResult)
        (now : Int) (next : Response → Request → Response) (w : Response)
        (r : Request), cfg.skipper r = false →
          (serve cfg lim now next w r).allowCalls = [cfg.key r] := by
  refine ⟨by decide, by decide, by decide, ?_⟩
  intro cfg lim now next w r hskip
  rcases hl : lim (cfg.key r) with e | res
  · by_cases hse : cfg.skipOnError <;> simp [serve, hskip, hl, hse]
  · by_cases ha : res.allowed <;> simp [serve, hskip, hl, ha]

/-- Witness for C5: the general part applied at the concrete configuration
confirms the single `Allow` call carries the bare derived key. -/
theorem allow_key_lacks_namespace_witness :
    (serve (resolveConfig { key := some (fun _ => "1.2.3.4") })
        (fun _ => .error "down") 0 (fun w _ => w) {} {}).allowCalls = ["1.2.3.4"] :=
  allow_key_lacks_namespace.2.2.2 (resolveConfig { key := some (fun _ => "1.2.3.4") })
    (fun _ => .error "down") 0 (fun w _ => w) {} {} rfl

/-- C6: the default key derivation tries `X-Forwarded-For` (trimmed segment
before the first comma), then trimmed `X-Real-IP`, then the remote address
with its port split off (raw when splitting fails), first match winning; the
three concrete examples of the claim evaluate as stated. -/
theorem get_ip_priority_and_examples :
    (∀ ff rip ra : String, ff ≠ "" →
      GetIP { xForwardedFor := ff, xRealIP := rip, remoteAddr := ra } =
        parseIP (trimSpace (beforeComma ff))) ∧
    (∀ rip ra : String, trimSpace rip ≠ "" →
      GetIP { xForwardedFor := "", xRealIP := rip, remoteAddr := ra } =
        parseIP (trimSpace rip)) ∧
    (∀ rip ra : String, trimSpace rip = "" →
      GetIP { xForwardedFor := "", xRealIP := rip, remoteAddr := ra } =
        match splitHostPort (trimSpace ra) with
        | none => parseIP (trimSpace ra)
        | some (host, _) => parseIP host) ∧
    GetIP { xForwardedFor := "203.0.113.5, 10.0.0.1", xRealIP := "", remoteAddr := "" }
      = some ⟨203, 0, 113, 5⟩ ∧
    GetIP { xForwardedFor := "", xRealIP := "198.51.100.7", remoteAddr := "" }
      = some ⟨198, 51, 100, 7⟩ ∧
    GetIP { xForwardedFor := "", xRealIP := "", remoteAddr := "192.0.2.1:54321" }
      = some ⟨192, 0, 2, 1⟩ := by
  refine ⟨?_, ?_, ?_, by decide, by decide, by decide⟩
  · intro ff rip ra hff
    simp [GetIP, hff]
  · intro rip ra hrip
    simp [GetIP, hrip]
  · intro rip ra hrip
    simp [GetIP, hrip]

/-- Witness for C6: the first-match-wins rule applied where all three
sources are populated — `X-Forwarded-For` decides. -/
theorem get_ip_priority_and_examples_witness :
    GetIP
        { xForwardedFor := "203.0.113.5, 10.0.0.1"
          xRealIP := "198.51.100.7"
          remoteAddr := "192.0.2.1:54321" } =
      parseIP (trimSpace (beforeComma "203.0.113.5, 10.0.0.1")) :=
  get_ip_priority_and_examples.1 "203.0.113.5, 10.0.0.1" "198.51.100.7"
    "192.0.2.1:54321" (by decide)

/-- C7: `NewWithConfig` replaces every zero-valued option with its stated
default (skipper, max 10, burst 10, status 429, the default message, sliding
window, key namespace `"http_limiter"`, period one minute, client-IP key
function, and the default reject/error handlers), and each of those fields
is non-zero in the resolved configuration. -/
theorem resolve_config_defaults (c : Config) :
    (c.skipper = none → (resolveConfig c).skipper = DefaultSkipper) ∧
    (c.max = 0 → (resolveConfig c).max = 10) ∧
    (c.burst = 0 → (resolveConfig c).burst = 10) ∧
    (c.statusCode = 0 → (resolveConfig c).statusCode = 429) ∧
    (c.message = "" → (resolveConfig c).message
      = "Too many requests, please try again later.") ∧
    (c.algorithm = 0 → (resolveConfig c).algorithm = SlidingWindowAlgorithm) ∧
    (c.pfx = "" → (resolveConfig c).pfx = "http_limiter") ∧
    (c.period = 0 → (resolveConfig c).period = 60 * 1000000000) ∧
    (c.key = none → (resolveConfig c).key = defaultKey) ∧
    (c.handler = none → (resolveConfig c).handler = fun w _ =>
      (w.writeHeader (resolveConfig c).statusCode).write (resolveConfig c).message) ∧
    (c.errHandler = none → (resolveConfig c).errHandler = fun e w _ =>
      (w.writeHeader 500).write e) ∧
    (resolveConfig c).max ≠ 0 ∧ (resolveConfig c).burst ≠ 0 ∧
    (resolveConfig c).statusCode ≠ 0 ∧ (resolveConfig c).message ≠ "" ∧
    (resolveConfig c).algorithm ≠ 0 ∧ (resolveConfig c).pfx ≠ "" ∧
    (resolveConfig c).period ≠ 0 := by
  have hmax : (resolveConfig c).max ≠ 0 := by
    rcases eq_or_ne c.max 0 with h | h <;> simp [resolveConfig, DefaultConfig, h]
  have hburst : (resolveConfig c).burst ≠ 0 := by
    rcases eq_or_ne c.burst 0 with h | h <;> simp [resolveConfig, DefaultConfig, h]
  have hstatus : (resolveConfig c).statusCode ≠ 0 := by
    rcases eq_or_ne c.statusCode 0 with h | h <;> simp [resolveConfig, DefaultConfig, h]
  have hmsg : (resolveConfig c).message ≠ "" := by
    rcases eq_or_ne c.message "" with h | h <;> simp [resolveConfig, DefaultConfig, h]
  have halg : (resolveConfig c).algorithm ≠ 0 := by
    rcases eq_or_ne c.algorithm 0 with h | h <;>
      simp [resolveConfig, DefaultConfig, SlidingWindowAlgorithm, h]
  have hpfx : (resolveConfig c).pfx ≠ "" := by
    rcases eq_or_ne c.pfx "" with h | h <;>
      simp [resolveConfig, DefaultConfig, DefaultKeyPfx, h]
  have hperiod : (resolveConfig c).period ≠ 0 := by
    rcases eq_or_ne c.period 0 with h | h <;> simp [resolveConfig, DefaultConfig, h]
  refine ⟨?_, ?_, ?_, ?_, ?_, ?_, ?_, ?_, ?_, ?_, ?_,
    hmax, hburst, hstatus, hmsg, halg, hpfx, hperiod⟩
  all_goals
    intro h
    simp [resolveConfig, DefaultConfig, DefaultKeyPfx, SlidingWindowAlgorithm, h]

/-- Witness for C7: resolving the all-zero configuration yields the stated
defaults. -/
theorem resolve_config_defaults_witness :
    (resolveConfig {}).max = 10 ∧ (resolveConfig {}).statusCode = 429 ∧
      (resolveConfig {}).pfx = "http_limiter" ∧
      (resolveConfig {}).period = 60 * 1000000000 :=
  ⟨(resolve_config_defaults {}).2.1 rfl, (resolve_config_defaults {}).2.2.2.1 rfl,
    (resolve_config_defaults {}).2.2.2.2.2.2.1 rfl,
    (resolve_config_defaults {}).2.2.2.2.2.2.2.1 rfl⟩
